import Mathlib

/-!
Verification development for the `rapscallion` render core
(`src/render/traverse.js`): a recursive VDOM-to-HTML renderer with an
identity-keyed cache and a synchronous bridge for pre-render lifecycle
hooks.  The traversal functions (`traverse`, `renderNode`,
`renderChildren`, `renderChildrenArray`, `evalComponent`) are shallow
embeddings of the source; the Emission Sequence, the context helpers,
the escape/attribute collaborators and the deasync bridge are not under
`src/` and are modelled from the spec where noted.
-/

set_option maxHeartbeats 1000000

/-- Context is an ambient read-only key-value mapping (spec section 3). -/
abbrev Ctx := List (String × String)

/-- Component-internal state: a mutable map of fields, here carried as a
value (spec section 3, Component Instance). -/
abbrev St := List (String × String)

/-- The settlement behaviour of the promise a lifecycle hook may return:
it eventually fulfills, eventually rejects, or never settles. -/
inductive Outcome where
  | fulfilled
  | rejected
  | pending
deriving DecidableEq, Repr

/-- The value returned by `componentWillMount`: either a non-thenable
value (`res && res.then` is falsy in the source, line 84) or a promise
with a given settlement behaviour. -/
inductive HookResult where
  | value
  | promise (o : Outcome)
deriving DecidableEq, Repr

mutual
/-- One unit of the VDOM tree, classified exactly by the runtime-shape
tests of `traverse` (traverse.js lines 115-143):
`null` stands for every falsy non-leaf value the `!node` guard absorbs
(absent / null / false); `text` and `num` are the string and number
leaves (note `""` and `0` are also falsy in JS and are absorbed by the
same guard); `list` is a JS array (a NodeList); `elem` is an element
object with a string `type` tag — its `props` are carried as the
`dangerouslySetInnerHTML` field (`none` = prop absent or falsy,
`some none` = present with falsy `__html`, `some (some h)` = raw string
`h`), the `children` prop, and the serialization of the remaining
attributes; `comp` is an object carrying the React `$$typeof` marker;
`other` is any other shape, carrying the string form of its `type`
field (the descriptor interpolated into the thrown TypeError). -/
inductive Node where
  | null
  | text (s : String)
  | num (n : Int)
  | list (children : List Node)
  | elem (id : Nat) (tag : String) (dsih : Option (Option String))
      (children : Node) (attrs : String)
  | comp (id : Nat) (c : Comp)
  | other (descriptor : String)

/-- A component reference (`node.type` of a `comp` node).  `stateless`
is a plain function of props and context (props are baked into the
closure, they are per-node constants); `stateful` is a class with
`prototype.isReactComponent`: initial state, an optional
`componentWillMount` hook, and `render`.  The hook both applies its
synchronous `setState` mutations (the `St → St` component of its
result) and returns a maybe-promise; `render` reads the instance state
and the component context.  `ctxIn`/`ctxOut` model the external context
collaborators for this component (see `getContext`/`getChildContext`). -/
inductive Comp where
  | stateless (ctxIn : Ctx → Ctx) (ctxOut : Ctx → Ctx) (f : Ctx → Node)
  | stateful (initState : St) (hook : Option (St → St × HookResult))
      (render : St → Ctx → Node) (ctxIn : Ctx → Ctx) (ctxOut : St → Ctx → Ctx)
end

/-- JS truthiness of a node value, as tested by `if (!node)` in
`traverse` (line 117) and `if (!children)` in `renderChildren`
(line 21): `null` (which also stands for undefined/false), the empty
string and the number 0 are falsy; arrays, objects and everything else
here is truthy. -/
def truthy : Node → Bool
  | .null => false
  | .text s => !(s == "")
  | .num n => !(n == 0)
  | _ => true

/-- An event observable on the instrumentation log: a stateful
component's `componentWillMount` hook ran, or its `render` ran.  The
log makes lifecycle side effects visible in the model. -/
inductive LogEv where
  | hookRun (id : Nat)
  | renderRun (id : Nat)
deriving DecidableEq, Repr

/-- Modelled from the spec: the Emission Sequence state (section 4.4,
`sequence.js` is not under `src/`).  `out` is the ordered list of
realized segments (the spec invariant: final output is their
concatenation in registration order); `cache` maps node identity to the
already-realized sub-sequence string; `log` is the instrumentation log
of lifecycle invocations. -/
structure RState where
  out : List String
  cache : List (Nat × String)
  log : List LogEv
deriving DecidableEq, Repr

/-- The empty sequence state at the start of a render pass. -/
def RState.init : RState := ⟨[], [], []⟩

/-- Modelled from the spec: `emit` appends one lazily-produced text
segment (section 4.4); since every producer here is pure, registration
and realization collapse to appending the produced string. -/
def RState.emit (st : RState) (s : String) : RState :=
  { st with out := st.out ++ [s] }

/-- A render error: `unknownNode d` is the TypeError thrown at
traverse.js line 142, carrying the string form of the offending node's
`type` field. -/
inductive RErr where
  | unknownNode (descriptor : String)
deriving DecidableEq, Repr

/-- Result of realizing (part of) a render pass: success with the
updated sequence state, a thrown error propagating to the caller, a
hang (the deasync loop at traverse.js line 96 never observes `done`, so
the pass blocks forever; the state records the side effects applied
before blocking), or fuel exhaustion of the model (components may
expand to arbitrary trees, so the embedding is fuel-indexed). -/
inductive RResult where
  | ok (st : RState)
  | err (e : RErr)
  | hang (st : RState)
  | outOfFuel
deriving DecidableEq, Repr

/-- Modelled from the spec: `delegateCached` (section 4.4,
`sequence.js` is not under `src/`).  A hit on the identity-keyed cache
appends the stored realized string as one segment without invoking the
producer; a miss realizes the producer into a fresh sub-sequence
(same cache, same log), appends the joined sub-output as one segment,
and stores it in the cache under the node's identity. -/
def delegateCached (st : RState) (id : Nat) (r : RState → RResult) : RResult :=
  match st.cache.lookup id with
  | some s => .ok (st.emit s)
  | none =>
    match r { st with out := [] } with
    | .ok sub =>
      let s := String.join sub.out
      .ok { out := st.out ++ [s], cache := (id, s) :: sub.cache, log := sub.log }
    | r => r

/-- Modelled from the spec: `htmlStringEscape` (util.js is not under
`src/`): escapes markup-significant characters in text leaves. -/
def escapeChar (c : Char) : String :=
  if c = '&' then "&amp;"
  else if c = '<' then "&lt;"
  else if c = '>' then "&gt;"
  else if c = '"' then "&quot;"
  else String.singleton c

/-- Modelled from the spec: escape a whole text leaf. -/
def htmlStringEscape (s : String) : String :=
  String.join (s.toList.map escapeChar)

/-- Modelled from the spec: `renderAttrs` (attrs.js is not under
`src/`) serializes the props map, excluding the `children` and
`dangerouslySetInnerHTML` keys; the element node carries the resulting
string, so the collaborator is the identity on it. -/
def renderAttrs (attrs : String) : String := attrs

/-- Modelled from the spec: the `REACT_ID` marker (symbols.js is not
under `src/`): an opaque constant segment injected after the attributes
of every element. -/
def REACT_ID : String := " data-reactid"

/-- Modelled from the spec: `getContext` (context.js is not under
`src/`) computes the component's effective inbound context from the
ambient context; each component carries its own restriction function. -/
def getContext : Comp → Ctx → Ctx
  | .stateless cIn _ _, ctx => cIn ctx
  | .stateful _ _ _ cIn _, ctx => cIn ctx

/-- Modelled from the spec: `getChildContext` (context.js is not under
`src/`) computes the context visible to the component's descendants;
for a stateful component it may read the instance state. -/
def getChildContext : Comp → St → Ctx → Ctx
  | .stateless _ cOut _, _, ctx => cOut ctx
  | .stateful _ _ _ _ cOut, s, ctx => cOut s ctx

mutual

/-- Embedding of `traverse` (traverse.js lines 115-143): the falsy
guard, then dispatch on the runtime shape. String and number leaves
emit one segment; elements and components delegate through the
identity-keyed cache; a truthy value of any other shape (including an
array, which no case of the switch matches) falls through to the
TypeError carrying the string form of `node.type` (for an array that
is "undefined"). -/
def traverse (fuel : Nat) (st : RState) (node : Node) (ctx : Ctx) : RResult :=
  if truthy node = false then .ok st
  else
    match node with
    | .text s => .ok (st.emit (htmlStringEscape s))
    | .num n => .ok (st.emit (toString n))
    | .elem id tag dsih children attrs =>
      delegateCached st id (fun sub => renderNode fuel sub tag dsih children attrs ctx)
    | .comp id c =>
      delegateCached st id (fun sub => evalComponent fuel sub id c ctx)
    | .list _ => .err (.unknownNode "undefined")
    | .other d => .err (.unknownNode d)
    | .null => .ok st
termination_by (fuel, sizeOf node, 1)

/-- Embedding of `renderNode` (traverse.js lines 39-50): open tag,
serialized attributes, identity marker, then either the raw
`__html || ""` content (when the `dangerouslySetInnerHTML` prop is
truthy) or the children traversal under the same context, then the
close tag. -/
def renderNode (fuel : Nat) (st : RState) (tag : String)
    (dsih : Option (Option String)) (children : Node) (attrs : String)
    (ctx : Ctx) : RResult :=
  let st1 := ((((st.emit ("<" ++ tag)).emit (renderAttrs attrs)).emit
      REACT_ID).emit ">")
  let inner : RResult :=
    match dsih with
    | some h => .ok (st1.emit (h.getD ""))
    | none => renderChildren fuel st1 children ctx
  match inner with
  | .ok st2 => .ok (st2.emit ("</" ++ tag ++ ">"))
  | r => r
termination_by (fuel, sizeOf children, 3)

/-- Embedding of `renderChildren` (traverse.js lines 20-28): falsy
children render nothing; an array goes element-wise through
`renderChildrenArray`; anything else is dispatched directly through
`traverse`. -/
def renderChildren (fuel : Nat) (st : RState) (children : Node) (ctx : Ctx) :
    RResult :=
  if truthy children = false then .ok st
  else
    match children with
    | .list a => renderChildrenArray fuel st a ctx
    | c => traverse fuel st c ctx
termination_by (fuel, sizeOf children, 2)

/-- Embedding of `renderChildrenArray` (traverse.js lines 9-18): each
element in order; a nested array recurses, any other element is
dispatched through `traverse`. -/
def renderChildrenArray (fuel : Nat) (st : RState) (children : List Node)
    (ctx : Ctx) : RResult :=
  match children with
  | [] => .ok st
  | child :: rest =>
    let r :=
      match child with
      | .list l => renderChildrenArray fuel st l ctx
      | c => traverse fuel st c ctx
    match r with
    | .ok st2 => renderChildrenArray fuel st2 rest ctx
    | r => r
termination_by (fuel, sizeOf children, 2)

/-- Embedding of `evalComponent` (traverse.js lines 63-103).  A
stateless component applies the function and traverses its result
under the child context.  A stateful component constructs the instance,
runs `componentWillMount` when present (installing the synchronous
state setter: the hook's `St → St` component), and then bridges: `done`
is set immediately for a non-thenable result, and otherwise only by the
fulfillment handler `promise.then(() => { done = true })` — so a
promise that rejects or never settles leaves `done` false and the
`deasync.loopWhile` at line 96 never exits (the pass hangs).  When
`done` is observed the instance's `render()` runs on the mutated state
and its result is traversed under the child context.  Recursive
traversals of freshly produced trees consume one unit of fuel. -/
def evalComponent (fuel : Nat) (st : RState) (id : Nat) (c : Comp) (ctx : Ctx) :
    RResult :=
  match fuel with
  | 0 => .outOfFuel
  | fuel + 1 =>
    match c with
    | .stateless cIn cOut f =>
      let componentContext := getContext (.stateless cIn cOut f) ctx
      let inst := f componentContext
      let childContext := getChildContext (.stateless cIn cOut f) [] ctx
      traverse fuel st inst childContext
    | .stateful initState hook render cIn cOut =>
      let componentContext := getContext (.stateful initState hook render cIn cOut) ctx
      let stateRes :=
        match hook with
        | none => (initState, HookResult.value, st)
        | some h =>
          let hr := h initState
          (hr.1, hr.2, { st with log := st.log ++ [LogEv.hookRun id] })
      let state := stateRes.1
      let res := stateRes.2.1
      let st1 := stateRes.2.2
      let done :=
        match res with
        | .value => true
        | .promise o => o == Outcome.fulfilled
      if done then
        let childContext := getChildContext (.stateful initState hook render cIn cOut) state ctx
        traverse fuel { st1 with log := st1.log ++ [LogEv.renderRun id] }
          (render state componentContext) childContext
      else .hang st1
termination_by (fuel, sizeOf c, 0)

end

/-- One whole render pass from an empty sequence: the final
concatenated string on success, nothing when the pass throws, hangs or
the model's fuel runs out. -/
def renderPass (fuel : Nat) (node : Node) (ctx : Ctx) : Option String :=
  match traverse fuel RState.init node ctx with
  | .ok st => some (String.join st.out)
  | _ => none

/-- Sequentially dispatch a list of nodes through `traverse`, stopping
at the first non-success: the reference behaviour a flattened NodeList
should exhibit. -/
def traverseAll (fuel : Nat) (st : RState) (l : List Node) (ctx : Ctx) :
    RResult :=
  match l with
  | [] => .ok st
  | a :: t =>
    match traverse fuel st a ctx with
    | .ok st2 => traverseAll fuel st2 t ctx
    | r => r

/-- Depth-first, left-to-right flattening of a NodeList: nested lists
are spliced in place. -/
def flattenNodeList : List Node → List Node
  | [] => []
  | .list l :: t => flattenNodeList l ++ flattenNodeList t
  | a :: t => a :: flattenNodeList t
termination_by l => sizeOf l

/-- Whether a node is a JS array (`node instanceof Array`). -/
def Node.isList : Node → Bool
  | .list _ => true
  | _ => false

/-- The identity key under which the dispatcher routes a node through
the cache: elements and component references carry one, every other
shape is never cached. -/
def nodeId : Node → Option Nat
  | .elem id _ _ _ _ => some id
  | .comp id _ => some id
  | _ => none

/-- A concrete stateful component whose `componentWillMount` returns a
promise that settles with a rejection: the failing input for the
synchronous bridge. -/
def rejectingComp : Comp :=
  .stateful [] (some (fun s => (s, .promise .rejected)))
    (fun _ _ => .text "never") (fun c => c) (fun _ c => c)

/-- A concrete pre-render hook that mutates the instance state through
the synchronous state setter and returns a promise that fulfills. -/
def loadingHook : St → St × HookResult :=
  fun _ => ([("loaded", "yes")], .promise .fulfilled)

/-- A concrete `render` that reads the instance state, so the output
shows whether the hook's mutation was visible. -/
def loadingRender : St → Ctx → Node :=
  fun s _ => .text (if s.lookup "loaded" = some "yes" then "ready" else "waiting")

/-- A concrete stateful component built from `loadingHook` and
`loadingRender`. -/
def loadingComp : Comp :=
  .stateful [("loaded", "no")] (some loadingHook) loadingRender
    (fun c => c) (fun _ c => c)

theorem traverseAll_append (fuel : Nat) (A B : List Node) (ctx : Ctx) :
    ∀ st, traverseAll fuel st (A ++ B) ctx =
      match traverseAll fuel st A ctx with
      | .ok st2 => traverseAll fuel st2 B ctx
      | r => r := by
  induction A with
  | nil => intro st; simp [traverseAll]
  | cons a t ih =>
    intro st
    simp only [List.cons_append, traverseAll]
    cases traverse fuel st a ctx <;> simp [ih]

theorem renderChildrenArray_flatten (fuel : Nat) (ctx : Ctx) :
    ∀ l st, renderChildrenArray fuel st l ctx
      = traverseAll fuel st (flattenNodeList l) ctx := by
  intro l
  induction l using flattenNodeList.induct with
  | case1 => intro st; simp [renderChildrenArray, flattenNodeList, traverseAll]
  | case2 l t ihl iht =>
    intro st
    rw [renderChildrenArray.eq_def]
    simp only [flattenNodeList, traverseAll_append]
    rw [ihl]
    cases traverseAll fuel st (flattenNodeList l) ctx <;> simp [iht]
  | case3 a t hne iht =>
    intro st
    rw [renderChildrenArray.eq_def]
    cases a <;> simp_all [flattenNodeList, traverseAll]

theorem delegateCached_ok (st : RState) (id : Nat) (r : RState → RResult)
    (st' : RState) (h : delegateCached st id r = .ok st') :
    ∃ s, st'.out = st.out ++ [s] ∧ st'.cache.lookup id = some s := by
  unfold delegateCached at h
  cases hl : st.cache.lookup id with
  | some s =>
    rw [hl] at h
    simp only [RResult.ok.injEq] at h
    refine ⟨s, by rw [← h]; simp [RState.emit], ?_⟩
    rw [← h]; simpa [RState.emit] using hl
  | none =>
    rw [hl] at h
    cases hr : r { st with out := [] } with
    | ok sub =>
      rw [hr] at h
      simp only [RResult.ok.injEq] at h
      refine ⟨String.join sub.out, ?_, ?_⟩
      · rw [← h]
      · rw [← h]; simp [List.lookup]
    | err e => rw [hr] at h; cases h
    | hang s2 => rw [hr] at h; cases h
    | outOfFuel => rw [hr] at h; cases h

/-- C2 (amended): for every nonzero numeric leaf, the dispatcher
appends the leaf's canonical decimal string representation as one
segment. -/
theorem C2_nonzero_number_emits_decimal (fuel : Nat) (st : RState) (n : Int)
    (ctx : Ctx) (h : n ≠ 0) :
    traverse fuel st (.num n) ctx = .ok (st.emit (toString n)) := by
  rw [traverse.eq_def]
  simp [truthy, h]

theorem C2_witness :
    (3 : Int) ≠ 0 ∧
      traverse 1 RState.init (.num 3) [] = .ok (RState.init.emit (toString (3 : Int))) :=
  ⟨by decide, C2_nonzero_number_emits_decimal 1 RState.init 3 [] (by decide)⟩

/-- C2 counterexample: the numeric leaf 0 is falsy in JS, so the guard
at traverse.js line 117 silently skips it: the pass output is the empty
string, which does not contain the decimal representation "0". -/
theorem C2_counterexample :
    renderPass 1 (.num 0) [] = some "" ∧ toString (0 : Int) ≠ "" := by
  constructor
  · simp [renderPass, traverse.eq_def, truthy, RState.init, String.join]
  · decide

/-- C3 counterexample: a NodeList handed directly to the dispatcher
entry point `traverse` matches no case of the switch (arrays have no
string `type` and no component marker), so the pass fails with the
unknown-node TypeError instead of dispatching the elements. -/
theorem C3_counterexample :
    traverse 1 RState.init (.list [.text "A"]) [] = .err (.unknownNode "undefined") := by
  rw [traverse.eq_def]
  simp [truthy]

/-- C3 (amended): a NodeList passed to `traverse` itself always fails
with the unknown-node error; element-wise in-order dispatch, recursing
on nested NodeLists, happens only for NodeLists in an element's
children position, where `renderChildrenArray` realizes exactly the
depth-first left-to-right flattening. -/
theorem C3_list_direct_vs_children :
    (∀ fuel st l ctx, traverse fuel st (.list l) ctx = .err (.unknownNode "undefined"))
    ∧ (∀ fuel st l ctx, renderChildrenArray fuel st l ctx
        = traverseAll fuel st (flattenNodeList l) ctx) := by
  constructor
  · intro fuel st l ctx
    rw [traverse.eq_def]
    simp [truthy]
  · intro fuel st l ctx
    exact renderChildrenArray_flatten fuel ctx l st

/-- C4: children NodeLists flatten depth-first left-to-right: a
children list renders as the in-order dispatch of its flattening,
`[[A, B], C]` renders `A` then `B` then `C`, and an empty or absent
children list renders nothing. -/
theorem C4_children_flatten_order :
    (∀ fuel st l ctx, renderChildren fuel st (.list l) ctx
        = traverseAll fuel st (flattenNodeList l) ctx)
    ∧ (∀ fuel st ctx, renderChildren fuel st (.list []) ctx = .ok st)
    ∧ (∀ fuel st ctx, renderChildren fuel st .null ctx = .ok st)
    ∧ renderChildren 1 RState.init (.list [.list [.text "A", .text "B"], .text "C"]) []
        = .ok ⟨["A", "B", "C"], [], []⟩ := by
  refine ⟨?_, ?_, ?_, ?_⟩
  · intro fuel st l ctx
    rw [renderChildren.eq_def]
    simp [truthy, renderChildrenArray_flatten]
  · intro fuel st ctx
    rw [renderChildren.eq_def]
    simp [truthy, renderChildrenArray]
  · intro fuel st ctx
    rw [renderChildren.eq_def]
    simp [truthy]
  · rw [renderChildren.eq_def]
    simp [truthy, renderChildrenArray, traverse.eq_def, htmlStringEscape,
      escapeChar, RState.init, RState.emit, String.singleton, String.join]
    decide

/-- C5: for every element, exactly one of raw inner HTML or child
traversal runs: a truthy `dangerouslySetInnerHTML` prop emits its
`__html` unescaped and the children prop never influences the output
(it is quantified on the left and absent on the right); otherwise the
children are traversed under the same context. -/
theorem C5_raw_inner_html_precedence :
    (∀ fuel st tag h children attrs ctx,
      renderNode fuel st tag (some h) children attrs ctx
        = .ok ((((((st.emit ("<" ++ tag)).emit (renderAttrs attrs)).emit
            REACT_ID).emit ">").emit (h.getD "")).emit ("</" ++ tag ++ ">")))
    ∧ (∀ fuel st tag children attrs ctx,
      renderNode fuel st tag none children attrs ctx
        = match renderChildren fuel ((((st.emit ("<" ++ tag)).emit
              (renderAttrs attrs)).emit REACT_ID).emit ">") children ctx with
          | .ok st2 => .ok (st2.emit ("</" ++ tag ++ ">"))
          | r => r) := by
  constructor
  · intro fuel st tag h children attrs ctx
    rw [renderNode.eq_def]
  · intro fuel st tag children attrs ctx
    rw [renderNode.eq_def]

/-- C6: a truthy node of unrecognized shape fails the pass with the
unknown-node TypeError carrying the node's descriptor and the pass
yields no output, while an absent/null/false node is a no-op. -/
theorem C6_unknown_shape_fails :
    (∀ fuel st d ctx, traverse fuel st (.other d) ctx = .err (.unknownNode d))
    ∧ (∀ fuel d ctx, renderPass fuel (.other d) ctx = none)
    ∧ (∀ fuel st ctx, traverse fuel st .null ctx = .ok st) := by
  refine ⟨?_, ?_, ?_⟩
  · intro fuel st d ctx
    rw [traverse.eq_def]
    simp [truthy]
  · intro fuel d ctx
    simp [renderPass, traverse.eq_def, truthy]
  · intro fuel st ctx
    rw [traverse.eq_def]
    simp [truthy]

/-- C9: an element whose raw-inner-HTML object has an absent or falsy
`__html` renders its inner content as the empty string (the
`__html || ""` fallback) and the children prop is still ignored. -/
theorem C9_falsy_html_renders_empty :
    ∀ fuel st tag children attrs ctx,
      renderNode fuel st tag (some none) children attrs ctx
        = .ok ((((((st.emit ("<" ++ tag)).emit (renderAttrs attrs)).emit
            REACT_ID).emit ">").emit "").emit ("</" ++ tag ++ ">")) := by
  intro fuel st tag children attrs ctx
  rw [renderNode.eq_def]
  simp

/-- C10: an element's single non-array child behaves exactly as if it
were dispatched directly through `traverse`: `renderChildren` on any
non-list node agrees with `traverse` on it, so a lone child needs no
wrapping list. -/
theorem C10_single_child_direct (fuel : Nat) (st : RState) (c : Node)
    (ctx : Ctx) (h : Node.isList c = false) :
    renderChildren fuel st c ctx = traverse fuel st c ctx := by
  cases htr : truthy c with
  | false => simp [renderChildren.eq_def, traverse.eq_def, htr]
  | true =>
    rw [renderChildren.eq_def, htr]
    cases c <;> simp_all [Node.isList]

theorem C10_witness :
    Node.isList (.text "A") = false ∧
      renderChildren 1 RState.init (.text "A") [] = traverse 1 RState.init (.text "A") [] :=
  ⟨rfl, C10_single_child_direct 1 RState.init (.text "A") [] rfl⟩

/-- C1 (code evaluated at the failing input): when a stateful
component's `componentWillMount` returns a promise that settles with a
rejection, `promise.then(() => { done = true })` at traverse.js
line 91 installs only a fulfillment handler, so `done` is never set and
the deasync loop at line 96 spins forever: the pass hangs after the
hook ran, `render()` is never invoked (no `renderRun` event), and no
failure — and no output — ever reaches the caller. -/
theorem C1_rejected_promise_hangs :
    traverse 5 RState.init (.comp 1 rejectingComp) []
        = .hang ⟨[], [], [.hookRun 1]⟩ ∧
      renderPass 5 (.comp 1 rejectingComp) [] = none := by
  have h : traverse 5 RState.init (.comp 1 rejectingComp) []
      = .hang ⟨[], [], [.hookRun 1]⟩ := by
    rw [traverse.eq_def]
    simp [truthy, delegateCached, RState.init, List.lookup, rejectingComp,
      evalComponent.eq_def]
  exact ⟨h, by simp [renderPass, h]⟩

/-- C7: a stateful component whose pre-render hook returns a pending
computation proceeds to `render()` exactly when the computation settles
fulfilled, and `render` then sees the state the hook's synchronous
setter produced; while the computation has not settled the bridge
blocks the pass indefinitely (no timeout) and `render()` is never
invoked (no `renderRun` event in the log of the hang state). -/
theorem C7_hook_promise_gates_render (fuel : Nat) (st : RState) (ctx : Ctx)
    (id : Nat) (s0 s1 : St) (h : St → St × HookResult)
    (rnd : St → Ctx → Node) (cIn : Ctx → Ctx) (cOut : St → Ctx → Ctx)
    (o : Outcome)
    (hmiss : st.cache.lookup id = none)
    (happ : h s0 = (s1, .promise o)) :
    (o = .fulfilled →
      traverse (fuel + 1) st (.comp id (.stateful s0 (some h) rnd cIn cOut)) ctx
        = match traverse fuel ⟨[], st.cache, st.log ++ [.hookRun id, .renderRun id]⟩
              (rnd s1 (cIn ctx)) (cOut s1 ctx) with
          | .ok sub => .ok ⟨st.out ++ [String.join sub.out],
              (id, String.join sub.out) :: sub.cache, sub.log⟩
          | r => r)
    ∧ (o = .pending →
      traverse (fuel + 1) st (.comp id (.stateful s0 (some h) rnd cIn cOut)) ctx
        = .hang ⟨[], st.cache, st.log ++ [.hookRun id]⟩) := by
  constructor
  · rintro rfl
    rw [traverse.eq_def]
    simp [truthy, delegateCached, hmiss, evalComponent.eq_def, happ,
      getContext, getChildContext]
  · rintro rfl
    rw [traverse.eq_def]
    simp [truthy, delegateCached, hmiss, evalComponent.eq_def, happ,
      getContext, getChildContext]

theorem C7_witness :
    RState.init.cache.lookup 1 = none ∧
      loadingHook [("loaded", "no")] = ([("loaded", "yes")], .promise .fulfilled) ∧
      traverse 1 RState.init (.comp 1 loadingComp) []
        = .ok ⟨["ready"], [(1, "ready")], [.hookRun 1, .renderRun 1]⟩ := by
  refine ⟨rfl, rfl, ?_⟩
  have h := (C7_hook_promise_gates_render 0 RState.init [] 1 [("loaded", "no")]
      [("loaded", "yes")] loadingHook loadingRender (fun c => c) (fun _ c => c)
      .fulfilled rfl rfl).1 rfl
  show traverse (0 + 1) RState.init (.comp 1 (.stateful [("loaded", "no")]
      (some loadingHook) loadingRender (fun c => c) (fun _ c => c))) [] = _
  rw [h]
  simp [loadingRender, traverse.eq_def, truthy, htmlStringEscape, escapeChar,
    RState.init, RState.emit, String.join, String.singleton, List.lookup]
  decide

/-- C8: once an element or component node reference has been rendered
in a pass (first encounter succeeded), any later encounter of the same
reference appends the byte-identical cached segment and returns with
the cache and the lifecycle log untouched — no re-traversal, no hook
re-invocation — for any remaining fuel and any ambient context. -/
theorem C8_cache_second_encounter (fuel fuel2 : Nat) (st st' : RState)
    (node : Node) (ctx ctx2 : Ctx) (id : Nat)
    (hid : nodeId node = some id)
    (h1 : traverse fuel st node ctx = .ok st') :
    ∃ s, st'.out = st.out ++ [s] ∧
      traverse fuel2 st' node ctx2 = .ok { st' with out := st'.out ++ [s] } := by
  cases node with
  | elem eid tag dsih children attrs =>
    simp only [nodeId, Option.some.injEq] at hid
    subst hid
    rw [traverse.eq_def] at h1
    simp [truthy] at h1
    obtain ⟨s, hout, hlk⟩ := delegateCached_ok st eid _ st' h1
    refine ⟨s, hout, ?_⟩
    rw [traverse.eq_def]
    simp [truthy, delegateCached, hlk, RState.emit]
  | comp cid c =>
    simp only [nodeId, Option.some.injEq] at hid
    subst hid
    rw [traverse.eq_def] at h1
    simp [truthy] at h1
    obtain ⟨s, hout, hlk⟩ := delegateCached_ok st cid _ st' h1
    refine ⟨s, hout, ?_⟩
    rw [traverse.eq_def]
    simp [truthy, delegateCached, hlk, RState.emit]
  | null => simp [nodeId] at hid
  | text s => simp [nodeId] at hid
  | num n => simp [nodeId] at hid
  | list l => simp [nodeId] at hid
  | other d => simp [nodeId] at hid

theorem C8_witness :
    nodeId (.elem 7 "div" none (.text "hi") "") = some 7 ∧
      traverse 1 RState.init (.elem 7 "div" none (.text "hi") "") []
        = .ok ⟨["<div data-reactid>hi</div>"], [(7, "<div data-reactid>hi</div>")], []⟩ ∧
      ∃ s, (⟨["<div data-reactid>hi</div>"], [(7, "<div data-reactid>hi</div>")], []⟩ : RState).out
            = RState.init.out ++ [s] ∧
        traverse 0 (⟨["<div data-reactid>hi</div>"], [(7, "<div data-reactid>hi</div>")], []⟩ : RState)
            (.elem 7 "div" none (.text "hi") "") []
          = .ok { (⟨["<div data-reactid>hi</div>"], [(7, "<div data-reactid>hi</div>")], []⟩ : RState) with
              out := (⟨["<div data-reactid>hi</div>"], [(7, "<div data-reactid>hi</div>")], []⟩ : RState).out ++ [s] } := by
  have h1 : traverse 1 RState.init (.elem 7 "div" none (.text "hi") "") []
      = .ok ⟨["<div data-reactid>hi</div>"], [(7, "<div data-reactid>hi</div>")], []⟩ := by
    rw [traverse.eq_def]
    simp [truthy, delegateCached, RState.init, List.lookup, renderNode.eq_def,
      renderChildren.eq_def, traverse.eq_def, htmlStringEscape, escapeChar,
      RState.emit, renderAttrs, REACT_ID, String.join, String.singleton]
    decide
  exact ⟨rfl, h1, C8_cache_second_encounter 1 0 RState.init _ _ [] [] 7 rfl h1⟩
